import Mathlib

/-!
Verification of the workflow execution and self-healing subsystem of the
automation-agent repository. Python dictionaries are modelled as ordered
association lists, Python exceptions as Except values, and the external
actuator (browser commands) as an opaque function parameter, matching the
spec, which treats the capability provider as an external collaborator.
String primitives are implemented structurally over character lists so that
closed computations reduce inside the kernel.
-/

/-- Primitive values appearing in workflow step dictionaries, variable
bindings and command results. Mirrors the subset of Python/YAML values the
code manipulates: strings, integers, floats (modelled as rationals, since
the code only ever stores the literal constants), booleans, lists and
string-keyed dictionaries. -/
inductive Val where
  | str : String → Val
  | int : Int → Val
  | rat : Rat → Val
  | bool : Bool → Val
  | list : List Val → Val
  | dict : List (String × Val) → Val

/-- A Python dict with string keys, in insertion order. -/
abbrev Dict := List (String × Val)

/-- A workflow step: in the source a step is a plain dict with at least an
action key and usually an args key. -/
abbrev Step := Dict

/-- Association-list lookup, modelling Python dict read access
(keys are unique in any dict the code builds). -/
def alookup {α : Type} (l : List (String × α)) (k : String) : Option α :=
  match l with
  | [] => none
  | (k2, v) :: rest => if k2 == k then some v else alookup rest k

/-- Python dict assignment d[k] = v: updates the existing key in place
(keeping its position) or appends a new key at the end. -/
def setKey (l : Dict) (k : String) (v : Val) : Dict :=
  if l.any (fun kv => kv.1 == k) then
    l.map (fun kv => if kv.1 == k then (k, v) else kv)
  else l ++ [(k, v)]

/-- Python truthiness for the values the code tests. -/
def truthy : Val → Bool
  | Val.str s => s != ""
  | Val.int n => n != 0
  | Val.rat q => q != 0
  | Val.bool b => b
  | Val.list l => !l.isEmpty
  | Val.dict l => !l.isEmpty

/-- Whether the first character list is a prefix of the second. -/
def charsPrefix : List Char → List Char → Bool
  | [], _ => true
  | _ :: _, [] => false
  | p :: ps, c :: cs => p == c && charsPrefix ps cs

/-- Whether the pattern occurs as a contiguous run inside the haystack. -/
def charsContain (pat : List Char) : List Char → Bool
  | [] => pat.isEmpty
  | c :: cs => charsPrefix pat (c :: cs) || charsContain pat cs

/-- Models Python substring containment (the in operator on strings). -/
def strContains (hay pat : String) : Bool :=
  charsContain pat.data hay.data

/-- Models Python str.startswith. -/
def pyStartsWith (s pre : String) : Bool :=
  charsPrefix pre.data s.data

/-- Models Python str.endswith. -/
def pyEndsWith (s suf : String) : Bool :=
  charsPrefix suf.data.reverse s.data.reverse

/-- Models Python str.lower on the ASCII strings the code handles. -/
def pyLower (s : String) : String :=
  String.mk (s.data.map Char.toLower)

/-! ## MCP server (src/src/mcp_server.py) -/

/-- The command names registered by MCPServer.register_commands. -/
def registeredCommands : List String :=
  ["navigate", "click", "type", "extract", "screenshot",
   "run_workflow", "record_workflow", "list_workflows"]

/-- An actuator: the behaviour of the registered command implementations.
Every command of the source returns a result dict, so the actuator is a
total function from a command name and keyword arguments to a result dict.
The real implementations call the external browser agent, which the spec
treats as an opaque collaborator. -/
abbrev Actuator := String → Dict → Dict

/-- MCPServer.substitute_variables on a single value: a string value is
replaced exactly when it starts with the two characters dollar-brace and
ends with a closing brace; the variable name is everything strictly between
(value[2:-1] in the source), looked up in the vars mapping with the
original string as default. All other values pass through unchanged. -/
def substituteValue (vars : Dict) (v : Val) : Val :=
  match v with
  | Val.str s =>
      if pyStartsWith s "$\x7b" && pyEndsWith s "\x7d" then
        match alookup vars (String.mk (s.data.drop 2).dropLast) with
        | some w => w
        | none => Val.str s
      else Val.str s
  | _ => v

/-- MCPServer.substitute_variables: applies substituteValue to every value
of the args dict, keeping keys and order. -/
def substitute_variables (args vars : Dict) : Dict :=
  args.map (fun kv => (kv.1, substituteValue vars kv.2))

/-- Reads the success flag of a step result the way run_workflow does:
result.get with key success, with Python truthiness, absent key falsy. -/
def getSuccess (r : Dict) : Bool :=
  match alookup r "success" with
  | some v => truthy v
  | none => false

/-- The step loop of MCPServer.run_workflow. For each step: read action and
args, substitute vars into args when the vars mapping is truthy
(nonempty), then, when the action is a registered command name, dispatch to
the actuator, collect the result and stop after the first result whose
success flag is falsy. A step whose action is not registered (or missing,
or not a string) is skipped without producing a result. A step whose args
value is not a mapping makes the surrounding try/except of run_workflow
catch a TypeError; the Python exception text is abstracted here. -/
def runSteps (act : Actuator) (vars : Dict) :
    List Step → Except String (List Dict)
  | [] => Except.ok []
  | step :: rest =>
      let argsVal := (alookup step "args").getD (Val.dict [])
      let substituted : Except String Val :=
        if vars.isEmpty then Except.ok argsVal
        else
          match argsVal with
          | Val.dict d => Except.ok (Val.dict (substitute_variables d vars))
          | _ => Except.error "argument substitution failed: args is not a mapping"
      match substituted with
      | Except.error e => Except.error e
      | Except.ok argsV =>
          match alookup step "action" with
          | some (Val.str a) =>
              if registeredCommands.contains a then
                match argsV with
                | Val.dict d =>
                    let result := act a d
                    if getSuccess result then
                      match runSteps act vars rest with
                      | Except.ok rs => Except.ok (result :: rs)
                      | Except.error e => Except.error e
                    else Except.ok [result]
                | _ => Except.error "keyword expansion failed: args is not a mapping"
              else runSteps act vars rest
          | some (Val.list _) => Except.error "unhashable type in command lookup"
          | some (Val.dict _) => Except.error "unhashable type in command lookup"
          | _ => runSteps act vars rest

/-- MCPServer.run_workflow. The workflows directory is modelled as an
association list from workflow name to the steps list parsed from the YAML
file of that name (run_workflow reads only the steps key of the file).
A missing file yields the not-found error dict; otherwise the steps are run
and the result dict always carries success true together with the
accumulated per-step results, while any exception raised during the loop is
caught and rendered as a failure dict. -/
def run_workflow (wfdir : List (String × List Step)) (act : Actuator)
    (name : String) (vars : Dict) : Dict :=
  match alookup wfdir name with
  | none =>
      [("success", Val.bool false),
       ("error", Val.str ("Workflow \x27" ++ name ++ "\x27 not found"))]
  | some steps =>
      match runSteps act vars steps with
      | Except.ok results =>
          [("success", Val.bool true), ("workflow", Val.str name),
           ("results", Val.list (results.map Val.dict))]
      | Except.error e =>
          [("success", Val.bool false), ("error", Val.str e)]

/-- MCPServer.execute_command: dispatches a registered command to the
actuator and rejects an unregistered command name with the unknown-command
error dict. The source also appends an entry to the in-process execution
log, which no claim observes and which is omitted here. -/
def execute_command (act : Actuator) (command_name : String)
    (parameters : Dict) : Dict :=
  if registeredCommands.contains command_name then act command_name parameters
  else
    [("success", Val.bool false),
     ("error", Val.str ("Unknown command: " ++ command_name))]

/-! ## Workflow registry (src/src/workflow_registry.py) -/

/-- WorkflowSpec: the in-memory workflow record. -/
structure Workflow where
  name : String
  version : String
  domain : Option String
  wvariables : Dict
  steps : List Step
  metadata : Dict

/-- The first half of the matching condition of
WorkflowRegistry.find_workflow: site is truthy, the candidate domain is
truthy and the site occurs inside the domain. -/
def matchesSite (w : Workflow) (site : Option String) : Bool :=
  match site, w.domain with
  | some s, some d => s != "" && d != "" && strContains d s
  | _, _ => false

/-- The second half of the matching condition of
WorkflowRegistry.find_workflow: the lowercased intent occurs inside the
lowercased candidate name. -/
def matchesIntent (w : Workflow) (intent : String) : Bool :=
  strContains (pyLower w.name) (pyLower intent)

/-- WorkflowRegistry.find_workflow: walk the candidates in store-iteration
order and return the first one whose domain contains a truthy site, or,
failing that for the candidate, whose name contains the intent
case-insensitively; none when no candidate matches. -/
def find_workflow (ws : List Workflow) (site : Option String)
    (intent : String) : Option Workflow :=
  match ws with
  | [] => none
  | w :: rest =>
      if matchesSite w site then some w
      else if matchesIntent w intent then some w
      else find_workflow rest site intent

/-- WorkflowRegistry.get_workflow: dictionary lookup by name; the registry
dict is keyed by the unique workflow name, modelled as first match in the
list. -/
def get_workflow (reg : List Workflow) (name : String) : Option Workflow :=
  match reg with
  | [] => none
  | w :: rest => if w.name == name then some w else get_workflow rest name

/-- WorkflowRegistry.save_workflow: upsert by name into the in-memory dict
(replacement keeps the position of the key, a new name is appended) and
persist to disk. Disk I/O always succeeds in this model, so the boolean
result of the source is dropped. -/
def save_workflow (reg : List Workflow) (w : Workflow) : List Workflow :=
  if reg.any (fun x => x.name == w.name) then
    reg.map (fun x => if x.name == w.name then w else x)
  else reg ++ [w]

/-! ## Router (src/src/router.py) -/

/-- Python whitespace characters recognised by the regex class backslash-s
and by str.split for the ASCII inputs the code handles. -/
def isPySpace (c : Char) : Bool :=
  c == ' ' || c == '\t' || c == '\n' || c == '\r' || c == '\x0b' || c == '\x0c'

/-- One attempt of the URL regex of the router at a given position: an
http or https scheme literal followed by at least one non-space character,
matched greedily. -/
def matchUrlAt (cs : List Char) : Option (List Char) :=
  if charsPrefix "https://".data cs then
    let tail := (cs.drop 8).takeWhile (fun c => !isPySpace c)
    if tail.isEmpty then none else some ("https://".data ++ tail)
  else if charsPrefix "http://".data cs then
    let tail := (cs.drop 7).takeWhile (fun c => !isPySpace c)
    if tail.isEmpty then none else some ("http://".data ++ tail)
  else none

/-- Leftmost match of the URL regex, scanning positions left to right. -/
def findUrlAux : List Char → Option String
  | [] => none
  | c :: cs =>
      match matchUrlAt (c :: cs) with
      | some m => some (String.mk m)
      | none => findUrlAux cs

/-- The re.search of the source for an absolute http or https URL token. -/
def findUrl (s : String) : Option String :=
  findUrlAux s.data

/-- Router.fallback_to_agent: simulated agent execution. Starts from a
fixed success message, adds a navigation result when the prompt mentions
navigate (using the first URL in the prompt or the example.com default) and
a screenshot result when the prompt mentions screenshot, then wraps
everything with success true and source agent. -/
def fallback_to_agent (act : Actuator) (prompt : String) : Dict :=
  let result0 : Dict :=
    [("success", Val.bool true), ("message", Val.str "Agent execution simulated")]
  let result1 :=
    if strContains (pyLower prompt) "navigate" then
      let url := (findUrl prompt).getD "https://example.com"
      setKey result0 "navigation" (Val.dict (act "navigate" [("url", Val.str url)]))
    else result0
  let result2 :=
    if strContains (pyLower prompt) "screenshot" then
      setKey result1 "screenshot"
        (Val.dict (act "screenshot" [("path", Val.str "screenshot.png")]))
    else result1
  [("success", Val.bool true), ("source", Val.str "agent"),
   ("prompt", Val.str prompt), ("result", Val.dict result2)]

/-- Router.handle_prompt after prompt parsing. The parse step consults the
language-model oracle or the deterministic regex fallback to obtain site,
intent and variable bindings; the oracle is an external collaborator, so
the parse result is taken as input here. When a workflow is found the
router runs it and wraps the outcome with success true and source
workflow; run_workflow catches every exception internally, so the except
branch of the source that would fall back to the agent cannot be reached
from a completed run, and the agent fallback is taken exactly when no
workflow matches. -/
def handle_prompt (registry : List Workflow) (wfdir : List (String × List Step))
    (act : Actuator) (prompt : String) (site : Option String) (intent : String)
    (vars : Dict) : Dict :=
  match find_workflow registry site intent with
  | some wf =>
      let result := run_workflow wfdir act wf.name vars
      [("success", Val.bool true), ("source", Val.str "workflow"),
       ("workflow", Val.str wf.name), ("result", Val.dict result)]
  | none => fallback_to_agent act prompt

/-! ## Self-healing engine (src/src/self_healing.py) -/

/-- WorkflowFailure: the immutable failure record. The error argument of
the source is a Python exception, modelled by its type name and message. -/
structure WorkflowFailure where
  workflow_name : String
  step_index : Int
  error_type : String
  error_message : String
  screenshot_path : Option String
  dom_snapshot : Option String
  timestamp : String

/-- RepairSuggestion, with the float confidence score modelled as a
rational (the code only ever stores the literal constants). -/
structure RepairSuggestion where
  workflow_name : String
  step_index : Int
  issue_type : String
  issue_description : String
  suggested_fix : Step
  confidence_score : Rat
  timestamp : String

/-- Python list read access with an int index: non-negative indices count
from the front, negative indices from the back, anything else raises
IndexError (none). -/
def pyIndex {α : Type} (l : List α) (i : Int) : Option α :=
  let j := if i < 0 then (l.length : Int) + i else i
  if j < 0 then none else l.get? j.toNat

/-- Python list item assignment with an int index, same index rules;
none models the IndexError raise. -/
def pySetIndex {α : Type} (l : List α) (i : Int) (a : α) : Option (List α) :=
  let j := if i < 0 then (l.length : Int) + i else i
  if j < 0 || (l.length : Int) ≤ j then none else some (l.set j.toNat a)

/-- Python int multiplication by two for the timeout doubling, on each
value shape: numbers double, booleans promote to int, sequences repeat,
a mapping raises TypeError (none). -/
def pyTimesTwo : Val → Option Val
  | Val.int n => some (Val.int (2 * n))
  | Val.rat q => some (Val.rat (2 * q))
  | Val.bool b => some (Val.int (if b then 2 else 0))
  | Val.str s => some (Val.str (s ++ s))
  | Val.list l => some (Val.list (l ++ l))
  | Val.dict _ => none

/-- Python str.split with no separator followed by indexing with -1: the
last whitespace-separated token, raising IndexError (none) when the string
has no token because it is empty or all whitespace. -/
def pySplitLast (s : String) : Option String :=
  (((s.data.splitOnP isPySpace).map String.mk).filter (fun t => t != "")).getLast?

/-- Wraps a string in single quotes, as the f-string selector templates of
the source do. -/
def quote27 (s : String) : String := "\x27" ++ s ++ "\x27"

/-- SelfHealingEngine.get_ai_selector_suggestion for a present repair
agent: a deterministic heuristic on the current selector. The enclosing
try/except of the source cannot fire on this pure computation. -/
def get_ai_selector_suggestion (current_selector : String) : Option String :=
  if strContains current_selector "#" && strContains current_selector "submit" then
    some ("button[type=" ++ quote27 "submit" ++ "], input[type=" ++ quote27 "submit" ++ "]")
  else if strContains current_selector "login" then
    some ("#login, .login-button, button[data-action=" ++ quote27 "login" ++ "]")
  else none

/-- The alternative-selector generation of
SelfHealingEngine.suggest_selector_repair: an ID selector yields
class/attribute/name alternatives, a class selector yields
ID/attribute/tag alternatives, and any other selector is templated around
its last whitespace-separated token, which raises IndexError on an empty
or all-whitespace selector. -/
def alternativeSelectors (current_selector : String) : Except String (List String) :=
  if pyStartsWith current_selector "#" then
    let base := String.mk (current_selector.data.drop 1)
    Except.ok ["." ++ base, "[id*=" ++ quote27 base ++ "]", "[name=" ++ quote27 base ++ "]"]
  else if pyStartsWith current_selector "." then
    let base := String.mk (current_selector.data.drop 1)
    Except.ok ["#" ++ base, "[class*=" ++ quote27 base ++ "]",
               "button[class*=" ++ quote27 base ++ "]"]
  else
    match pySplitLast current_selector with
    | none => Except.error "list index out of range"
    | some tok =>
        Except.ok ["[data-testid*=" ++ quote27 tok ++ "]",
                   "[aria-label*=" ++ quote27 current_selector ++ "]",
                   "button:contains(" ++ quote27 current_selector ++ ")"]

/-- Replaces the step at a Python index of the named workflow in the
registry. Used to express the in-place dict mutations of the repair
functions: the failing step handed to them is the very step object stored
in the registry, and a shallow dict copy shares its args mapping, so
writing through the shared args mapping updates the stored workflow. -/
def mutateStep (reg : List Workflow) (wname : String) (idx : Int)
    (newStep : Step) : List Workflow :=
  reg.map (fun w =>
    if w.name == wname then
      match pySetIndex w.steps idx newStep with
      | some steps2 => { w with steps := steps2 }
      | none => w
    else w)

/-- Reads the current selector the way suggest_selector_repair does:
failing_step.get args default empty dict, then .get selector default empty
string. A non-mapping args or a non-string selector value makes the later
string methods raise (error). -/
def currentSelectorOf (failing_step : Step) : Except String String :=
  match alookup failing_step "args" with
  | none => Except.ok ""
  | some (Val.dict d) =>
      match alookup d "selector" with
      | none => Except.ok ""
      | some (Val.str s) => Except.ok s
      | some _ => Except.error "selector value is not a string"
  | some _ => Except.error "args is not a mapping"

/-- SelfHealingEngine.suggest_selector_repair. Computes the alternative
selectors (possibly crashing on an empty selector), optionally prepends
the agent heuristic, then writes the chosen selector through the args
mapping shared between the shallow copy and the stored step, so the
registry is updated as a side effect; the suggestion carries the mutated
step as its fix with confidence 0.7 (0.3 is dead code because the
alternative list is never empty on the success path). -/
def suggest_selector_repair (hasAgent : Bool) (now : String)
    (reg : List Workflow) (f : WorkflowFailure) (failing_step : Step) :
    Except String (RepairSuggestion × List Workflow) :=
  match currentSelectorOf failing_step with
  | Except.error e => Except.error e
  | Except.ok current_selector =>
      match alternativeSelectors current_selector with
      | Except.error e => Except.error e
      | Except.ok alts0 =>
          let alts :=
            match (if hasAgent then get_ai_selector_suggestion current_selector
                   else none) with
            | some ai => ai :: alts0
            | none => alts0
          let newSel := alts.headD current_selector
          match alookup failing_step "args" with
          | some (Val.dict d) =>
              let newStep := setKey failing_step "args"
                (Val.dict (setKey d "selector" (Val.str newSel)))
              Except.ok
                ({ workflow_name := f.workflow_name,
                   step_index := f.step_index,
                   issue_type := "selector_drift",
                   issue_description := "Selector " ++ quote27 current_selector ++
                     " not found. UI may have changed.",
                   suggested_fix := newStep,
                   confidence_score := if alts.isEmpty then 0.3 else 0.7,
                   timestamp := now },
                 mutateStep reg f.workflow_name f.step_index newStep)
          | _ => Except.error "KeyError: args"

/-- SelfHealingEngine.suggest_timeout_repair. When the step has an args
mapping, the doubled timeout and the wait flag are written through the
shared args mapping, mutating the stored step as well; when the step has
no args key, a fresh args dict is attached to the copy only and the store
is untouched. Confidence 0.6. -/
def suggest_timeout_repair (now : String) (reg : List Workflow)
    (f : WorkflowFailure) (failing_step : Step) :
    Except String (RepairSuggestion × List Workflow) :=
  match alookup failing_step "args" with
  | none =>
      let fix := setKey failing_step "args"
        (Val.dict [("timeout", Val.int 60), ("wait_for_load", Val.bool true)])
      Except.ok
        ({ workflow_name := f.workflow_name, step_index := f.step_index,
           issue_type := "timeout",
           issue_description := "Operation timed out. Page may be loading slowly.",
           suggested_fix := fix, confidence_score := 0.6, timestamp := now }, reg)
  | some (Val.dict d) =>
      match pyTimesTwo ((alookup d "timeout").getD (Val.int 30)) with
      | none => Except.error "unsupported operand type for timeout doubling"
      | some doubled =>
          let newStep := setKey failing_step "args"
            (Val.dict (setKey (setKey d "timeout" doubled) "wait_for_load"
              (Val.bool true)))
          Except.ok
            ({ workflow_name := f.workflow_name, step_index := f.step_index,
               issue_type := "timeout",
               issue_description := "Operation timed out. Page may be loading slowly.",
               suggested_fix := newStep, confidence_score := 0.6, timestamp := now },
             mutateStep reg f.workflow_name f.step_index newStep)
  | some _ => Except.error "args is not a mapping"

/-- SelfHealingEngine.suggest_network_repair: retry metadata is written on
the shallow copy at top level, so the stored step is untouched.
Confidence 0.5. -/
def suggest_network_repair (now : String) (reg : List Workflow)
    (f : WorkflowFailure) (failing_step : Step) :
    Except String (RepairSuggestion × List Workflow) :=
  let fix := setKey (setKey failing_step "retry_count" (Val.int 3))
    "retry_delay" (Val.int 5)
  Except.ok
    ({ workflow_name := f.workflow_name, step_index := f.step_index,
       issue_type := "network_error",
       issue_description := "Network connectivity issue. Adding retry logic.",
       suggested_fix := fix, confidence_score := 0.5, timestamp := now }, reg)

/-- The fresh authentication step literal of
SelfHealingEngine.suggest_auth_repair. -/
def authCheckStep : Step :=
  [("action", Val.str "authenticate"),
   ("args", Val.dict [("check_login_state", Val.bool true),
                      ("re_authenticate", Val.bool true)])]

/-- SelfHealingEngine.suggest_auth_repair: the suggested fix is the fresh
authentication step (the shallow copy of the failing step computed in the
source is unused), the store is untouched and the confidence is 0.8. -/
def suggest_auth_repair (now : String) (reg : List Workflow)
    (f : WorkflowFailure) (_failing_step : Step) :
    Except String (RepairSuggestion × List Workflow) :=
  Except.ok
    ({ workflow_name := f.workflow_name, step_index := f.step_index,
       issue_type := "authentication_failure",
       issue_description := "Authentication required. Adding login verification step.",
       suggested_fix := authCheckStep, confidence_score := 0.8, timestamp := now },
     reg)

/-- SelfHealingEngine.suggest_generic_repair: without a repair agent the
failing step itself is returned with issue type unknown_error and
confidence 0.2; with an agent the stubbed analysis path returns the step
with issue type generic_error and confidence 0.6. The store is untouched
either way. -/
def suggest_generic_repair (hasAgent : Bool) (now : String)
    (reg : List Workflow) (f : WorkflowFailure) (failing_step : Step) :
    Except String (RepairSuggestion × List Workflow) :=
  if !hasAgent then
    Except.ok
      ({ workflow_name := f.workflow_name, step_index := f.step_index,
         issue_type := "unknown_error",
         issue_description := "Unknown error: " ++ f.error_message,
         suggested_fix := failing_step, confidence_score := 0.2, timestamp := now },
       reg)
  else
    Except.ok
      ({ workflow_name := f.workflow_name, step_index := f.step_index,
         issue_type := "generic_error",
         issue_description := "AI-analyzed error: " ++ f.error_message,
         suggested_fix := failing_step, confidence_score := 0.6, timestamp := now },
       reg)

/-- SelfHealingEngine.classify_and_suggest_repair: keyword checks on the
lowercased error message, in the fixed source order, first match wins. -/
def classify_and_suggest_repair (hasAgent : Bool) (now : String)
    (reg : List Workflow) (f : WorkflowFailure) (failing_step : Step) :
    Except String (RepairSuggestion × List Workflow) :=
  let msg := pyLower f.error_message
  if strContains msg "selector" || strContains msg "element not found" then
    suggest_selector_repair hasAgent now reg f failing_step
  else if strContains msg "timeout" then
    suggest_timeout_repair now reg f failing_step
  else if strContains msg "network" || strContains msg "connection" then
    suggest_network_repair now reg f failing_step
  else if strContains msg "authentication" || strContains msg "login" then
    suggest_auth_repair now reg f failing_step
  else
    suggest_generic_repair hasAgent now reg f failing_step

/-- SelfHealingEngine.analyze_and_repair: resolve the workflow and the
failing step, then classify; any exception inside is caught and turned
into no suggestion, leaving the registry as it was (every repair path
mutates the store only on its success exit). The bounds guard of the
source compares the possibly negative step index with len, so a negative
index falls through to Python back-counting item access. -/
def analyze_and_repair (hasAgent : Bool) (now : String) (reg : List Workflow)
    (f : WorkflowFailure) : Option RepairSuggestion × List Workflow :=
  match get_workflow reg f.workflow_name with
  | none => (none, reg)
  | some wf =>
      if (wf.steps.length : Int) ≤ f.step_index then (none, reg)
      else
        match pyIndex wf.steps f.step_index with
        | none => (none, reg)
        | some failing_step =>
            match classify_and_suggest_repair hasAgent now reg f failing_step with
            | Except.ok (s, reg2) => (some s, reg2)
            | Except.error _ => (none, reg)

/-- The mutable state of a SelfHealingEngine together with its registry. -/
structure HealState where
  registry : List Workflow
  failures_log : List WorkflowFailure
  repair_suggestions : List RepairSuggestion
  healing_enabled : Bool

/-- The asdict rendering of a suggestion used in the result dict of
handle_workflow_failure. -/
def suggestionToVal (s : RepairSuggestion) : Val :=
  Val.dict
    [("workflow_name", Val.str s.workflow_name),
     ("step_index", Val.int s.step_index),
     ("issue_type", Val.str s.issue_type),
     ("issue_description", Val.str s.issue_description),
     ("suggested_fix", Val.dict s.suggested_fix),
     ("confidence_score", Val.rat s.confidence_score),
     ("timestamp", Val.str s.timestamp)]

/-- SelfHealingEngine.handle_workflow_failure: refuse when healing is
disabled, otherwise record the failure, analyze it, and either append the
suggestion (also persisted to a review file, an external side effect not
modelled) and report it with requires_approval, or report that no
suggestion could be generated. -/
def handle_workflow_failure (hasAgent : Bool) (now : String) (st : HealState)
    (workflow_name : String) (step_index : Int)
    (error_type error_message : String)
    (screenshot_path dom_snapshot : Option String) : Dict × HealState :=
  if !st.healing_enabled then
    ([("success", Val.bool false), ("error", Val.str "Self-healing is disabled")], st)
  else
    let f : WorkflowFailure :=
      { workflow_name := workflow_name, step_index := step_index,
        error_type := error_type, error_message := error_message,
        screenshot_path := screenshot_path, dom_snapshot := dom_snapshot,
        timestamp := now }
    let st1 := { st with failures_log := st.failures_log ++ [f] }
    match analyze_and_repair hasAgent now st1.registry f with
    | (some s, reg2) =>
        ([("success", Val.bool true), ("failure_recorded", Val.bool true),
          ("repair_suggested", Val.bool true), ("suggestion", suggestionToVal s),
          ("requires_approval", Val.bool true)],
         { st1 with registry := reg2,
                    repair_suggestions := st1.repair_suggestions ++ [s] })
    | (none, reg2) =>
        ([("success", Val.bool false), ("failure_recorded", Val.bool true),
          ("repair_suggested", Val.bool false),
          ("message", Val.str "Could not generate repair suggestion")],
         { st1 with registry := reg2 })

/-- SelfHealingEngine.apply_repair: refuse without approval; otherwise
fetch the workflow, and when the step index is below len, perform the
Python item assignment (negative indices count from the back; an index
below minus len raises IndexError, caught into a failure dict) and save;
an index at or above len falls through to the could-not-apply failure
dict. Save always succeeds in this model. -/
def apply_repair (reg : List Workflow) (s : RepairSuggestion)
    (approved : Bool) : Dict × List Workflow :=
  if !approved then
    ([("success", Val.bool false),
      ("error", Val.str "Repair requires human approval")], reg)
  else
    match get_workflow reg s.workflow_name with
    | none => ([("success", Val.bool false), ("error", Val.str "Workflow not found")], reg)
    | some wf =>
        if s.step_index < (wf.steps.length : Int) then
          match pySetIndex wf.steps s.step_index s.suggested_fix with
          | some steps2 =>
              let reg2 := save_workflow reg { wf with steps := steps2 }
              ([("success", Val.bool true),
                ("message", Val.str "Repair applied successfully"),
                ("workflow_updated", Val.bool true)], reg2)
          | none =>
              ([("success", Val.bool false),
                ("error", Val.str
                  "Repair application failed: list assignment index out of range")],
               reg)
        else
          ([("success", Val.bool false), ("error", Val.str "Could not apply repair")], reg)

/-! ## Specification-side definitions

The placeholder predicate below follows the words of the spec rather than
the source, for comparison with the substitution condition the source
actually implements. -/

/-- A character allowed inside an identifier. -/
def isIdentChar (c : Char) : Bool := c.isAlpha || c.isDigit || c == '_'

/-- Whether a string is an identifier: nonempty, made of identifier
characters and not starting with a digit. -/
def isIdentifier (s : String) : Bool :=
  s != "" && s.data.all isIdentChar &&
    !(match s.data.head? with | some c => c.isDigit | none => false)

/-- Modelled from the spec: a value is substituted only if it is a string
exactly matching a dollar-brace identifier close-brace placeholder. This is
the substitution condition of the spec text, to be compared with the
prefix/suffix test of the source. -/
def isExactPlaceholder (s : String) : Bool :=
  pyStartsWith s "$\x7b" && pyEndsWith s "\x7d" &&
    isIdentifier (String.mk (s.data.drop 2).dropLast)

/-! ## Concrete fixtures used by counterexamples and witnesses -/

/-- An actuator whose commands always report failure. -/
def failActuator : Actuator :=
  fun _ _ => [("success", Val.bool false), ("error", Val.str "boom")]

/-- An actuator whose commands always report success. -/
def okActuator : Actuator :=
  fun c _ => [("success", Val.bool true), ("command", Val.str c)]

/-- A navigate step. -/
def navStep : Step :=
  [("action", Val.str "navigate"),
   ("args", Val.dict [("url", Val.str "https://example.com")])]

/-- A workflows directory holding one workflow with one navigate step. -/
def C1dir : List (String × List Step) := [("w", [navStep])]

/-- A workflows directory whose only workflow has a single step with an
unregistered action name. -/
def C2dir : List (String × List Step) :=
  [("w", [[("action", Val.str "frobnicate"), ("args", Val.dict [])]])]

/-- A registry workflow whose YAML file is absent from the workflows
directory, so that running it by name fails. -/
def ghostWf : Workflow :=
  { name := "ghostflow", version := "1.0", domain := none, wvariables := [],
    steps := [], metadata := [] }

/-- A registry workflow matched by name whose run succeeds. -/
def okWf : Workflow :=
  { name := "okflow", version := "1.0", domain := none, wvariables := [],
    steps := [], metadata := [] }

/-- The workflows directory backing okWf. -/
def C3dir : List (String × List Step) := [("okflow", [])]

/-- A click step whose selector is an ID selector. -/
def C4step : Step :=
  [("action", Val.str "click"), ("args", Val.dict [("selector", Val.str "#btn")])]

/-- A stored workflow holding C4step. -/
def C4wf : Workflow :=
  { name := "w", version := "1.0", domain := none, wvariables := [],
    steps := [C4step], metadata := [] }

/-- A selector failure against C4wf. -/
def C4failure : WorkflowFailure :=
  { workflow_name := "w", step_index := 0, error_type := "Exception",
    error_message := "Element not found: #btn", screenshot_path := none,
    dom_snapshot := none, timestamp := "t" }

/-- A network failure used to witness the repair paths that do not touch
the store. -/
def C4netFailure : WorkflowFailure :=
  { workflow_name := "w", step_index := 0, error_type := "Exception",
    error_message := "connection refused", screenshot_path := none,
    dom_snapshot := none, timestamp := "t" }

/-- A replacement step used by apply_repair fixtures. -/
def C6fix : Step := [("action", Val.str "navigate"), ("args", Val.dict [])]

/-- First step of the two-step apply_repair fixture workflow. -/
def C6stepA : Step := [("action", Val.str "click"), ("args", Val.dict [])]

/-- Second step of the two-step apply_repair fixture workflow. -/
def C6stepB : Step := [("action", Val.str "extract"), ("args", Val.dict [])]

/-- A stored workflow with two steps. -/
def C6wf : Workflow :=
  { name := "w", version := "1.0", domain := none, wvariables := [],
    steps := [C6stepA, C6stepB], metadata := [] }

/-- An approved suggestion carrying the Python index -1. -/
def C6sug : RepairSuggestion :=
  { workflow_name := "w", step_index := -1, issue_type := "timeout",
    issue_description := "d", suggested_fix := C6fix, confidence_score := 0.6,
    timestamp := "t" }

/-- A suggestion whose index is past the end of C6wf. -/
def C6sugHigh : RepairSuggestion :=
  { workflow_name := "w", step_index := 5, issue_type := "timeout",
    issue_description := "d", suggested_fix := C6fix, confidence_score := 0.6,
    timestamp := "t" }

/-- A click step whose selector is an ID selector, for the classification
priority fixture. -/
def C7step : Step :=
  [("action", Val.str "click"),
   ("args", Val.dict [("selector", Val.str "#submit-btn")])]

/-- The stored workflow holding C7step. -/
def C7wf : Workflow :=
  { name := "w", version := "1.0", domain := none, wvariables := [],
    steps := [C7step], metadata := [] }

/-- A failure whose message mentions both timeout and selector. -/
def C7f : WorkflowFailure :=
  { workflow_name := "w", step_index := 0, error_type := "Exception",
    error_message := "Timeout waiting for selector #submit-btn",
    screenshot_path := none, dom_snapshot := none, timestamp := "t" }

/-- The step C7step after the selector rewrite performed at suggestion
time. -/
def C7stepFixed : Step :=
  [("action", Val.str "click"),
   ("args", Val.dict [("selector", Val.str ".submit-btn")])]

/-- The suggestion produced for C7f. -/
def C7sug : RepairSuggestion :=
  { workflow_name := "w", step_index := 0, issue_type := "selector_drift",
    issue_description :=
      "Selector \x27#submit-btn\x27 not found. UI may have changed.",
    suggested_fix := C7stepFixed, confidence_score := 0.7, timestamp := "t" }

/-- The registry after the suggestion for C7f was generated. -/
def C7reg2 : List Workflow := [{ C7wf with steps := [C7stepFixed] }]

/-- A click step for the authentication fixtures. -/
def C8step : Step :=
  [("action", Val.str "click"), ("args", Val.dict [("selector", Val.str "#x")])]

/-- The stored workflow holding C8step. -/
def C8wf : Workflow :=
  { name := "w", version := "1.0", domain := none, wvariables := [],
    steps := [C8step], metadata := [] }

/-- An authentication failure against C8wf. -/
def C8f : WorkflowFailure :=
  { workflow_name := "w", step_index := 0, error_type := "Exception",
    error_message := "authentication required", screenshot_path := none,
    dom_snapshot := none, timestamp := "t" }

/-- The suggestion produced for C8f. -/
def C8sug : RepairSuggestion :=
  { workflow_name := "w", step_index := 0, issue_type := "authentication_failure",
    issue_description := "Authentication required. Adding login verification step.",
    suggested_fix := authCheckStep, confidence_score := 0.8, timestamp := "t" }

/-- A login failure used by the authentication witness. -/
def C8witF : WorkflowFailure :=
  { workflow_name := "w2", step_index := 1, error_type := "Exception",
    error_message := "login required", screenshot_path := none,
    dom_snapshot := none, timestamp := "u" }

/-- The two-step workflow used by the authentication witness. -/
def C8witWf : Workflow :=
  { name := "w2", version := "1.0", domain := none, wvariables := [],
    steps := [C6stepA, C8step], metadata := [] }

/-- The suggestion produced for C8witF. -/
def C8witSug : RepairSuggestion :=
  { workflow_name := "w2", step_index := 1, issue_type := "authentication_failure",
    issue_description := "Authentication required. Adding login verification step.",
    suggested_fix := authCheckStep, confidence_score := 0.8, timestamp := "u" }

/-- A workflow without a domain whose name contains the intent export. -/
def C9wfA : Workflow :=
  { name := "export_all", version := "1.0", domain := none, wvariables := [],
    steps := [], metadata := [] }

/-- The only domain-bearing workflow of the C9 stores. -/
def C9wfB : Workflow :=
  { name := "jira_flow", version := "1.0", domain := some "jira.company.com",
    wvariables := [], steps := [], metadata := [] }

/-- A workflow matching neither the jira site nor the export intent. -/
def C9wfM : Workflow :=
  { name := "maintenance", version := "1.0", domain := none, wvariables := [],
    steps := [], metadata := [] }

/-- A click step with an empty args dict: no selector key. -/
def C10step : Step := [("action", Val.str "click"), ("args", Val.dict [])]

/-- The stored workflow holding C10step. -/
def C10wf : Workflow :=
  { name := "w", version := "1.0", domain := none, wvariables := [],
    steps := [C10step], metadata := [] }

/-- A healing state with healing enabled and C10wf stored. -/
def C10st : HealState :=
  { registry := [C10wf], failures_log := [], repair_suggestions := [],
    healing_enabled := true }

/-! ## Helper lemmas -/

/-- In any result list the step loop completes normally, every result
except possibly the last reports success: the loop stops immediately after
the first failing result. -/
theorem runSteps_ok_prefix (act : Actuator) (vars : Dict) :
    ∀ (steps : List Step) (rs : List Dict),
      runSteps act vars steps = Except.ok rs →
      ∀ r ∈ rs.dropLast, getSuccess r = true := by
  intro steps
  induction steps with
  | nil =>
      intro rs h r hr
      simp only [runSteps] at h
      cases h
      simp at hr
  | cons step rest ih =>
      intro rs h r hr
      simp only [runSteps] at h
      split at h
      next => cases h
      next =>
        split at h
        next a ha =>
          split at h
          next hreg =>
            split at h
            next d =>
              split at h
              next hsucc =>
                split at h
                next rs2 hrec =>
                  cases h
                  cases rs2 with
                  | nil => simp at hr
                  | cons y ys =>
                      rw [List.dropLast_cons₂] at hr
                      rcases List.mem_cons.mp hr with h1 | h2
                      · subst h1; assumption
                      · exact ih (y :: ys) hrec r h2
                next e he => cases h
              next hsucc =>
                cases h
                simp at hr
            next => cases h
          next hreg => exact ih rs h r hr
        next => cases h
        next => cases h
        next => exact ih rs h r hr

/-- Every suggestion that suggest_selector_repair returns carries issue
type selector_drift. -/
theorem selector_repair_ok_issue (hasAgent : Bool) (now : String)
    (reg : List Workflow) (f : WorkflowFailure) (failing_step : Step)
    (s : RepairSuggestion) (reg2 : List Workflow)
    (h : suggest_selector_repair hasAgent now reg f failing_step =
      Except.ok (s, reg2)) : s.issue_type = "selector_drift" := by
  unfold suggest_selector_repair at h
  split at h
  next => cases h
  next =>
    split at h
    next => cases h
    next =>
      split at h <;>
      · split at h
        next =>
          simp only [Except.ok.injEq, Prod.mk.injEq] at h
          obtain ⟨hs, -⟩ := h
          subst hs
          rfl
        next => cases h

/-- With a truthy message hitting the selector keywords, classification
dispatches to the selector repair. -/
theorem classify_selector_branch (hasAgent : Bool) (now : String)
    (reg : List Workflow) (f : WorkflowFailure) (failing_step : Step)
    (hsel : (strContains (pyLower f.error_message) "selector" ||
      strContains (pyLower f.error_message) "element not found") = true) :
    classify_and_suggest_repair hasAgent now reg f failing_step =
      suggest_selector_repair hasAgent now reg f failing_step := by
  unfold classify_and_suggest_repair
  simp [hsel]

/-- apply_repair with approval and an in-range non-negative index replaces
exactly the addressed step and saves the result. -/
theorem apply_repair_replaces (reg : List Workflow) (s : RepairSuggestion)
    (wf : Workflow) (hwf : get_workflow reg s.workflow_name = some wf)
    (h0 : 0 ≤ s.step_index) (hlt : s.step_index < (wf.steps.length : Int)) :
    apply_repair reg s true =
      ([("success", Val.bool true),
        ("message", Val.str "Repair applied successfully"),
        ("workflow_updated", Val.bool true)],
       save_workflow reg
         { wf with steps := wf.steps.set s.step_index.toNat s.suggested_fix }) := by
  have hnotneg : ¬ s.step_index < 0 := by omega
  have hset : pySetIndex wf.steps s.step_index s.suggested_fix
      = some (wf.steps.set s.step_index.toNat s.suggested_fix) := by
    simp only [pySetIndex, if_neg hnotneg]
    rw [if_neg]
    simp only [Bool.or_eq_true, decide_eq_true_eq]
    omega
  unfold apply_repair
  rw [hwf]
  simp only [Bool.not_true, Bool.false_eq_true, if_false, if_pos hlt, hset]

/-! ## Claim C1 -/

/-- Claim C1, counterexample: running the stored one-step workflow against
an actuator whose step fails yields a workflow-level result whose success
flag is true even though the single executed step reported failure, so the
claimed biconditional between the workflow success flag and the executed
steps all succeeding is false at this input. -/
theorem C1_counterexample :
    run_workflow C1dir failActuator "w" [] =
      [("success", Val.bool true), ("workflow", Val.str "w"),
       ("results", Val.list
         [Val.dict [("success", Val.bool false), ("error", Val.str "boom")]])] := rfl

/-- Claim C1, amended: whenever the workflow exists and the step loop
completes without an exception, run_workflow reports workflow-level
success true regardless of the per-step outcomes, returning the
accumulated results; execution still stops at the first failing step, so
every accumulated result except possibly the last reports success. -/
theorem C1_success_flag (wfdir : List (String × List Step)) (act : Actuator)
    (name : String) (vars : Dict) (steps : List Step) (rs : List Dict)
    (hfind : alookup wfdir name = some steps)
    (hrun : runSteps act vars steps = Except.ok rs) :
    run_workflow wfdir act name vars =
      [("success", Val.bool true), ("workflow", Val.str name),
       ("results", Val.list (rs.map Val.dict))]
    ∧ ∀ r ∈ rs.dropLast, getSuccess r = true := by
  constructor
  · simp only [run_workflow, hfind, hrun]
  · exact runSteps_ok_prefix act vars steps rs hrun

/-- Claim C1, witness: the amended theorem evaluated on the concrete
one-step store with the failing actuator. -/
theorem C1_witness :
    run_workflow C1dir failActuator "w" [] =
      [("success", Val.bool true), ("workflow", Val.str "w"),
       ("results", Val.list
         (([[("success", Val.bool false), ("error", Val.str "boom")]] :
            List Dict).map Val.dict))]
    ∧ ∀ r ∈ ([[("success", Val.bool false), ("error", Val.str "boom")]] :
        List Dict).dropLast, getSuccess r = true :=
  C1_success_flag C1dir failActuator "w" [] [navStep]
    [[("success", Val.bool false), ("error", Val.str "boom")]] rfl rfl

/-! ## Claim C2 -/

/-- A step whose args value can be handled by the substitution pass: the
args key is absent or holds a mapping. -/
def argsWellFormed (step : Step) : Bool :=
  match alookup step "args" with
  | none => true
  | some (Val.dict _) => true
  | some _ => false

/-- Claim C2, counterexample: a workflow whose only step carries the
unregistered action frobnicate runs to a successful overall result with an
empty results list: the step is silently skipped, producing neither a
failed step result carrying an unknown-command error nor any other
record. -/
theorem C2_counterexample :
    run_workflow C2dir failActuator "w" [] =
      [("success", Val.bool true), ("workflow", Val.str "w"),
       ("results", Val.list [])] := rfl

/-- Claim C2, amended: inside run_workflow a step whose action is not a
registered command name is skipped silently, contributing no result and
not stopping the loop; only the separate execute_command entry point
rejects an unregistered command name with the unknown-command error
dict. -/
theorem C2_unknown_action (act act2 : Actuator) (vars : Dict) (step : Step)
    (rest : List Step) (a : String) (params : Dict)
    (haction : alookup step "action" = some (Val.str a))
    (hunreg : registeredCommands.contains a = false)
    (hargs : argsWellFormed step = true) :
    runSteps act vars (step :: rest) = runSteps act vars rest
    ∧ execute_command act2 a params =
        [("success", Val.bool false),
         ("error", Val.str ("Unknown command: " ++ a))] := by
  constructor
  · unfold argsWellFormed at hargs
    cases halo : alookup step "args" with
    | none =>
        simp only [runSteps, halo, Option.getD_none]
        split
        next e heq =>
          exfalso
          split at heq <;> cases heq
        next argsV heq =>
          split at heq <;> cases heq <;>
            (simp only [haction]; rw [hunreg]; simp)
    | some v =>
        rw [halo] at hargs
        cases v with
        | dict d =>
            simp only [runSteps, halo, Option.getD_some]
            split
            next e heq =>
              exfalso
              split at heq <;> cases heq
            next argsV heq =>
              split at heq <;> cases heq <;>
                (simp only [haction]; rw [hunreg]; simp)
        | str s => cases hargs
        | int n => cases hargs
        | rat q => cases hargs
        | bool b => cases hargs
        | list l => cases hargs
  · unfold execute_command
    rw [hunreg]
    simp

/-- Claim C2, witness: the amended theorem evaluated on the concrete
frobnicate step. -/
theorem C2_witness :
    runSteps failActuator []
        ([[("action", Val.str "frobnicate"), ("args", Val.dict [])]] :
          List Step) = runSteps failActuator [] []
    ∧ execute_command okActuator "frobnicate" [] =
        [("success", Val.bool false),
         ("error", Val.str ("Unknown command: " ++ "frobnicate"))] :=
  C2_unknown_action failActuator okActuator []
    [("action", Val.str "frobnicate"), ("args", Val.dict [])] [] "frobnicate" []
    rfl rfl rfl

/-! ## Claim C3 -/

/-- Claim C3, counterexample: the registry matches the ghost workflow by
intent, but its YAML file is missing from the workflows directory, so the
run fails with a not-found error; handle_prompt nevertheless returns a
success flag of true with source workflow wrapping the failed run result,
instead of falling back to the agent. -/
theorem C3_counterexample :
    handle_prompt [ghostWf] [] failActuator "do the ghost thing" none "ghost" [] =
      [("success", Val.bool true), ("source", Val.str "workflow"),
       ("workflow", Val.str "ghostflow"),
       ("result", Val.dict
         [("success", Val.bool false),
          ("error", Val.str "Workflow \x27ghostflow\x27 not found")])] := rfl

/-- Claim C3, amended: when a workflow is found, handle_prompt always
returns success true with source workflow wrapping whatever result
run_workflow produced, even an unsuccessful one, because run_workflow
catches every exception internally and the router never inspects the
result success flag; the direct-actuator fallback with source agent is
taken exactly when no workflow matches. -/
theorem C3_router_wrap (registry : List Workflow)
    (wfdir : List (String × List Step)) (act : Actuator) (prompt : String)
    (site : Option String) (intent : String) (vars : Dict) :
    (∀ wf, find_workflow registry site intent = some wf →
        handle_prompt registry wfdir act prompt site intent vars =
          [("success", Val.bool true), ("source", Val.str "workflow"),
           ("workflow", Val.str wf.name),
           ("result", Val.dict (run_workflow wfdir act wf.name vars))])
    ∧ (find_workflow registry site intent = none →
        handle_prompt registry wfdir act prompt site intent vars =
          fallback_to_agent act prompt) := by
  constructor
  · intro wf hwf
    simp only [handle_prompt, hwf]
  · intro hnone
    simp only [handle_prompt, hnone]

/-- Claim C3, witness: the amended theorem evaluated on a store whose
found workflow runs successfully and on an empty store. -/
theorem C3_witness :
    handle_prompt [okWf] C3dir okActuator "p" none "ok" [] =
      [("success", Val.bool true), ("source", Val.str "workflow"),
       ("workflow", Val.str "okflow"),
       ("result", Val.dict (run_workflow C3dir okActuator "okflow" []))]
    ∧ handle_prompt [] C3dir okActuator "p" none "ok" [] =
        fallback_to_agent okActuator "p" :=
  ⟨(C3_router_wrap [okWf] C3dir okActuator "p" none "ok" []).1 okWf rfl,
   (C3_router_wrap [] C3dir okActuator "p" none "ok" []).2 rfl⟩

/-! ## Claim C4 -/

/-- The steps of the named workflow in a registry. -/
def stepsOf (reg : List Workflow) (name : String) : Option (List Step) :=
  (get_workflow reg name).map (fun w => w.steps)

/-- Claim C4, counterexample: merely generating a selector-drift repair
suggestion for the stored click step rewrites the selector inside the
stored workflow steps, before apply_repair and without any approval: the
shallow step copy of the source shares its args mapping with the stored
step, so the suggestion-time write changes the store from selector #btn to
selector .btn. -/
theorem C4_counterexample :
    stepsOf (analyze_and_repair false "t" [C4wf] C4failure).2 "w" =
      some [[("action", Val.str "click"),
             ("args", Val.dict [("selector", Val.str ".btn")])]]
    ∧ stepsOf [C4wf] "w" =
        some [[("action", Val.str "click"),
               ("args", Val.dict [("selector", Val.str "#btn")])]]
    ∧ ("#btn" : String) ≠ ".btn" :=
  ⟨rfl, rfl, by decide⟩

/-- When classification reaches the network, authentication or generic
branch, the repair functions return the registry untouched. -/
theorem classify_preserves_registry (hasAgent : Bool) (now : String)
    (reg : List Workflow) (f : WorkflowFailure) (failing_step : Step)
    (s : RepairSuggestion) (reg2 : List Workflow)
    (h1 : strContains (pyLower f.error_message) "selector" = false)
    (h2 : strContains (pyLower f.error_message) "element not found" = false)
    (h3 : strContains (pyLower f.error_message) "timeout" = false)
    (hok : classify_and_suggest_repair hasAgent now reg f failing_step =
      Except.ok (s, reg2)) : reg2 = reg := by
  simp only [classify_and_suggest_repair, h1, h2, h3, Bool.or_false,
    Bool.false_eq_true, if_false] at hok
  split at hok
  next =>
    unfold suggest_network_repair at hok
    cases hok
    rfl
  next =>
    split at hok
    next =>
      unfold suggest_auth_repair at hok
      cases hok
      rfl
    next =>
      unfold suggest_generic_repair at hok
      split at hok <;> (cases hok; rfl)

/-- Claim C4, amended: repair-suggestion generation preserves the stored
workflows only for the classifications that never write through the shared
args mapping: when the failure message contains none of the selector,
element-not-found and timeout keywords (so classification reaches the
network, authentication or generic branch), the registry after
analyze_and_repair is unchanged; the selector and timeout branches instead
mutate the stored failing step at suggestion time. -/
theorem C4_no_mutation_without_keywords (hasAgent : Bool) (now : String)
    (reg : List Workflow) (f : WorkflowFailure)
    (h1 : strContains (pyLower f.error_message) "selector" = false)
    (h2 : strContains (pyLower f.error_message) "element not found" = false)
    (h3 : strContains (pyLower f.error_message) "timeout" = false) :
    (analyze_and_repair hasAgent now reg f).2 = reg := by
  unfold analyze_and_repair
  split
  next => rfl
  next wf hwf =>
    split
    next => rfl
    next hlen =>
      split
      next => rfl
      next failing_step hidx =>
        split
        next s2 reg2 hok =>
          exact classify_preserves_registry hasAgent now reg f failing_step
            s2 reg2 h1 h2 h3 hok
        next => rfl

/-- Claim C4, witness: the amended theorem evaluated on a network failure
against the stored click workflow. -/
theorem C4_witness : (analyze_and_repair false "t" [C4wf] C4netFailure).2 = [C4wf] :=
  C4_no_mutation_without_keywords false "t" [C4wf] C4netFailure rfl rfl rfl

/-! ## Claim C5 -/

/-- Claim C5, counterexample: the value holds the placeholder for a as a
proper substring and is not a string exactly of the placeholder-identifier
form, so by the claim it must be returned unchanged; but because the
source tests only the two-character prefix and the closing-brace suffix,
the whole interior is used as the variable name and the value is replaced
when the variables mapping happens to carry that interior as a key. -/
theorem C5_counterexample :
    substitute_variables [("url", Val.str "$\x7ba\x7d $\x7bb\x7d")]
        [("a\x7d $\x7bb", Val.str "gotcha")] = [("url", Val.str "gotcha")]
    ∧ isExactPlaceholder "$\x7ba\x7d $\x7bb\x7d" = false
    ∧ strContains "$\x7ba\x7d $\x7bb\x7d" "$\x7ba\x7d" = true
    ∧ ("$\x7ba\x7d $\x7bb\x7d" : String) ≠ "$\x7ba\x7d" :=
  ⟨rfl, rfl, rfl, by decide⟩

/-- Claim C5, amended: a value is substituted exactly when it is a string
that starts with the two-character placeholder prefix and ends with the
closing brace; the variable name is everything strictly between, with no
identifier validation, and is looked up in the variables mapping with the
original string as the fallback; strings not of that shape, including
strings with a placeholder in a proper interior position such as a URL
prefix, and all non-string values are returned unchanged. -/
theorem C5_substitution_shape (vars : Dict) (s : String) (v : Val) :
    ((pyStartsWith s "$\x7b" && pyEndsWith s "\x7d") = true →
      substituteValue vars (Val.str s) =
        (alookup vars (String.mk (s.data.drop 2).dropLast)).getD (Val.str s))
    ∧ ((pyStartsWith s "$\x7b" && pyEndsWith s "\x7d") = false →
      substituteValue vars (Val.str s) = Val.str s)
    ∧ ((match v with | Val.str _ => False | _ => True) →
      substituteValue vars v = v) := by
  refine ⟨?_, ?_, ?_⟩
  · intro h
    simp only [substituteValue, h, if_true]
    cases alookup vars (String.mk (s.data.drop 2).dropLast) <;> rfl
  · intro h
    simp only [substituteValue, h, Bool.false_eq_true, if_false]
  · intro h
    cases v <;> simp_all [substituteValue]

/-- Claim C5, witness: the amended theorem evaluated on the exact
placeholder for target, on a URL with an interior placeholder and on an
integer value. -/
theorem C5_witness :
    substituteValue [("target", Val.str "https://x.com")]
        (Val.str "$\x7btarget\x7d") = Val.str "https://x.com"
    ∧ substituteValue [("target", Val.str "https://x.com")]
        (Val.str "https://$\x7btarget\x7d") = Val.str "https://$\x7btarget\x7d"
    ∧ substituteValue [("target", Val.str "https://x.com")] (Val.int 5) = Val.int 5 :=
  ⟨((C5_substitution_shape [("target", Val.str "https://x.com")]
      "$\x7btarget\x7d" (Val.int 5)).1 rfl).trans rfl,
   (C5_substitution_shape [("target", Val.str "https://x.com")]
      "https://$\x7btarget\x7d" (Val.int 5)).2.1 rfl,
   (C5_substitution_shape [("target", Val.str "https://x.com")]
      "https://$\x7btarget\x7d" (Val.int 5)).2.2 trivial⟩

/-! ## Claim C6 -/

/-- Claim C6, counterexample: an approved suggestion with the negative
index -1 passes the bounds validation of apply_repair (which only compares
the index with the length) and replaces the last stored step, reporting
success, where the claim requires a structured error and no replacement
for every negative index. -/
theorem C6_counterexample :
    apply_repair [C6wf] C6sug true =
      ([("success", Val.bool true),
        ("message", Val.str "Repair applied successfully"),
        ("workflow_updated", Val.bool true)],
       [{ C6wf with steps := [C6stepA, C6fix] }]) := rfl

/-- Claim C6, amended: with approval, apply_repair validates only that the
index is below the length: an index at or above the length yields the
could-not-apply error and leaves the store unchanged; an index between
zero and the length replaces exactly the addressed step and saves; a
negative index at or above minus the length passes the check and replaces
the step counted from the back; an index below minus the length raises
IndexError, caught into a structured failure dict with the store
unchanged. -/
theorem C6_bounds_behaviour (reg : List Workflow) (s : RepairSuggestion)
    (wf : Workflow) (hwf : get_workflow reg s.workflow_name = some wf) :
    ((wf.steps.length : Int) ≤ s.step_index →
      apply_repair reg s true =
        ([("success", Val.bool false),
          ("error", Val.str "Could not apply repair")], reg))
    ∧ (0 ≤ s.step_index → s.step_index < (wf.steps.length : Int) →
      apply_repair reg s true =
        ([("success", Val.bool true),
          ("message", Val.str "Repair applied successfully"),
          ("workflow_updated", Val.bool true)],
         save_workflow reg
           { wf with steps := wf.steps.set s.step_index.toNat s.suggested_fix }))
    ∧ (s.step_index < -(wf.steps.length : Int) →
      apply_repair reg s true =
        ([("success", Val.bool false),
          ("error", Val.str
            "Repair application failed: list assignment index out of range")],
         reg))
    ∧ (-(wf.steps.length : Int) ≤ s.step_index → s.step_index < 0 →
      apply_repair reg s true =
        ([("success", Val.bool true),
          ("message", Val.str "Repair applied successfully"),
          ("workflow_updated", Val.bool true)],
         save_workflow reg
           { wf with steps := wf.steps.set ((wf.steps.length : Int) + s.step_index).toNat s.suggested_fix })) := by
  refine ⟨?_, ?_, ?_, ?_⟩
  · intro hge
    unfold apply_repair
    rw [hwf]
    have hnlt : ¬ s.step_index < (wf.steps.length : Int) := by omega
    simp only [Bool.not_true, Bool.false_eq_true, if_false, if_neg hnlt]
  · intro h0 hlt
    exact apply_repair_replaces reg s wf hwf h0 hlt
  · intro hlow
    unfold apply_repair
    rw [hwf]
    have hlt : s.step_index < (wf.steps.length : Int) := by omega
    have hneg : s.step_index < 0 := by omega
    have hset : pySetIndex wf.steps s.step_index s.suggested_fix = none := by
      simp only [pySetIndex, if_pos hneg]
      rw [if_pos]
      simp only [Bool.or_eq_true, decide_eq_true_eq]
      omega
    simp only [Bool.not_true, Bool.false_eq_true, if_false, if_pos hlt, hset]
  · intro hge hneg
    unfold apply_repair
    rw [hwf]
    have hlt : s.step_index < (wf.steps.length : Int) := by omega
    have hset : pySetIndex wf.steps s.step_index s.suggested_fix =
        some (wf.steps.set ((wf.steps.length : Int) + s.step_index).toNat
          s.suggested_fix) := by
      simp only [pySetIndex, if_pos hneg]
      rw [if_neg]
      simp only [Bool.or_eq_true, decide_eq_true_eq]
      omega
    simp only [Bool.not_true, Bool.false_eq_true, if_false, if_pos hlt, hset]

/-- Claim C6, witness: the amended theorem evaluated on the two-step
workflow with an index past the end and with the index -1. -/
theorem C6_witness :
    apply_repair [C6wf] C6sugHigh true =
      ([("success", Val.bool false),
        ("error", Val.str "Could not apply repair")], [C6wf])
    ∧ apply_repair [C6wf] C6sug true =
        ([("success", Val.bool true),
          ("message", Val.str "Repair applied successfully"),
          ("workflow_updated", Val.bool true)],
         save_workflow [C6wf]
           { C6wf with steps := C6wf.steps.set ((C6wf.steps.length : Int) + C6sug.step_index).toNat C6sug.suggested_fix }) :=
  ⟨(C6_bounds_behaviour [C6wf] C6sugHigh C6wf rfl).1 (by decide),
   (C6_bounds_behaviour [C6wf] C6sug C6wf rfl).2.2.2 (by decide) (by decide)⟩

/-! ## Claim C7 -/

/-- Claim C7: classification checks the selector keywords before the
timeout keyword, so every failure whose message contains both selector and
timeout that yields a suggestion yields one whose issue type is
selector_drift, not timeout. -/
theorem C7_classification_priority (hasAgent : Bool) (now : String)
    (reg : List Workflow) (f : WorkflowFailure) (failing_step : Step)
    (s : RepairSuggestion) (reg2 : List Workflow)
    (hsel : strContains (pyLower f.error_message) "selector" = true)
    (_htime : strContains (pyLower f.error_message) "timeout" = true)
    (hok : classify_and_suggest_repair hasAgent now reg f failing_step =
      Except.ok (s, reg2)) :
    s.issue_type = "selector_drift" ∧ s.issue_type ≠ "timeout" := by
  have hbranch := classify_selector_branch hasAgent now reg f failing_step
    (by rw [hsel]; rfl)
  rw [hbranch] at hok
  have hissue := selector_repair_ok_issue hasAgent now reg f failing_step
    s reg2 hok
  exact ⟨hissue, by rw [hissue]; decide⟩

/-- Claim C7, witness: the theorem applied to the concrete failure whose
message mentions both timeout and selector, with the suggestion it
produces. -/
theorem C7_witness : C7sug.issue_type = "selector_drift" ∧ C7sug.issue_type ≠ "timeout" :=
  C7_classification_priority false "t" [C7wf] C7f C7step C7sug C7reg2
    rfl rfl rfl

/-! ## Claim C8 -/

/-- Claim C8, counterexample: the authentication suggestion for the
one-step workflow proposes the dedicated authentication-check step with
confidence 0.8, but applying it with approval replaces the failing click
step, so after application the workflow consists of the authentication
step alone and the original failing step is no longer present, contrary
to the claimed insert-ahead outcome. -/
theorem C8_counterexample :
    analyze_and_repair false "t" [C8wf] C8f = (some C8sug, [C8wf])
    ∧ (apply_repair [C8wf] C8sug true).2 = [{ C8wf with steps := [authCheckStep] }]
    ∧ alookup C8step "action" = some (Val.str "click")
    ∧ alookup authCheckStep "action" = some (Val.str "authenticate") :=
  ⟨rfl, rfl, rfl, rfl⟩

/-- Claim C8, amended: a failure classified as authentication_failure
yields a suggestion whose fix is the dedicated authentication-check step
with confidence 0.8 and whose generation leaves the store untouched; the
suggestion describes inserting a login-verification step, but apply_repair
installs the fix by replacing the step at the failing index, so the
original failing step is overwritten by the authentication step rather
than preceded by it. -/
theorem C8_auth_replaces (hasAgent : Bool) (now : String)
    (reg : List Workflow) (f : WorkflowFailure) (failing_step : Step)
    (s : RepairSuggestion) (reg2 : List Workflow)
    (h1 : strContains (pyLower f.error_message) "selector" = false)
    (h2 : strContains (pyLower f.error_message) "element not found" = false)
    (h3 : strContains (pyLower f.error_message) "timeout" = false)
    (h4 : strContains (pyLower f.error_message) "network" = false)
    (h5 : strContains (pyLower f.error_message) "connection" = false)
    (h6 : (strContains (pyLower f.error_message) "authentication" ||
      strContains (pyLower f.error_message) "login") = true)
    (hok : classify_and_suggest_repair hasAgent now reg f failing_step =
      Except.ok (s, reg2)) :
    s.issue_type = "authentication_failure"
    ∧ s.suggested_fix = authCheckStep
    ∧ s.confidence_score = 0.8
    ∧ reg2 = reg
    ∧ ∀ wf, get_workflow reg s.workflow_name = some wf →
        0 ≤ s.step_index → s.step_index < (wf.steps.length : Int) →
        apply_repair reg s true =
          ([("success", Val.bool true),
            ("message", Val.str "Repair applied successfully"),
            ("workflow_updated", Val.bool true)],
           save_workflow reg
             { wf with steps := wf.steps.set s.step_index.toNat authCheckStep }) := by
  simp only [classify_and_suggest_repair, h1, h2, h3, h4, h5, h6,
    Bool.or_false, Bool.false_eq_true, if_false, if_true] at hok
  unfold suggest_auth_repair at hok
  cases hok
  refine ⟨rfl, rfl, rfl, rfl, ?_⟩
  intro wf hwf h0 hlt
  exact apply_repair_replaces reg _ wf hwf h0 hlt

/-- Claim C8, witness: the amended theorem applied to the concrete login
failure at index 1 of the two-step workflow. -/
theorem C8_witness :
    C8witSug.issue_type = "authentication_failure"
    ∧ C8witSug.suggested_fix = authCheckStep
    ∧ C8witSug.confidence_score = 0.8
    ∧ apply_repair [C8witWf] C8witSug true =
        ([("success", Val.bool true),
          ("message", Val.str "Repair applied successfully"),
          ("workflow_updated", Val.bool true)],
         save_workflow [C8witWf]
           { C8witWf with steps := C8witWf.steps.set C8witSug.step_index.toNat authCheckStep }) := by
  have h := C8_auth_replaces false "u" [C8witWf] C8witF C8step C8witSug
    [C8witWf] rfl rfl rfl rfl rfl rfl rfl
  exact ⟨h.1, h.2.1, h.2.2.1, h.2.2.2.2 C8witWf rfl (by decide) (by decide)⟩

/-! ## Claim C9 -/

/-- Claim C9, counterexample: a store whose only domain-bearing workflow
carries the jira domain, preceded in iteration order by a domain-less
workflow whose name contains the intent export: find returns the earlier
name-matched workflow, not the domain-bearing one, so the claimed
in-particular consequence fails even though the per-candidate policy is as
stated. -/
theorem C9_counterexample :
    find_workflow [C9wfA, C9wfB] (some "jira.company.com") "export" = some C9wfA
    ∧ C9wfA.name ≠ C9wfB.name
    ∧ C9wfA.domain = none
    ∧ C9wfB.domain = some "jira.company.com" :=
  ⟨rfl, by decide, rfl, rfl⟩

/-- Claim C9, amended: find walks candidates in store-iteration order and
returns the first satisfying the site-in-domain test or, failing that, the
intent-in-name test; in particular the domain-bearing jira workflow is
returned for the jira site provided every earlier candidate in iteration
order matches neither the site by domain nor the intent by name. -/
theorem C9_first_match (pre : List Workflow) (w : Workflow)
    (post : List Workflow) (site : Option String) (intent : String)
    (hpre : ∀ u ∈ pre, matchesSite u site = false ∧ matchesIntent u intent = false)
    (hw : matchesSite w site = true) :
    find_workflow (pre ++ w :: post) site intent = some w := by
  induction pre with
  | nil =>
      simp only [List.nil_append, find_workflow, hw, if_true]
  | cons u us ih =>
      have hu := hpre u (by simp)
      simp only [List.cons_append, find_workflow, hu.1, hu.2,
        Bool.false_eq_true, if_false]
      exact ih (fun x hx => hpre x (by simp [hx]))

/-- Claim C9, witness: the amended theorem applied to a store whose
leading workflow matches neither test, followed by the jira workflow. -/
theorem C9_witness :
    find_workflow [C9wfM, C9wfB] (some "jira.company.com") "export" = some C9wfB := by
  have h := C9_first_match [C9wfM] C9wfB [] (some "jira.company.com") "export"
    (by
      intro u hu
      have : u = C9wfM := by simpa using hu
      subst this
      exact ⟨rfl, rfl⟩)
    rfl
  simpa using h

/-! ## Claim C10 -/

/-- Claim C10: a failure whose message hits the selector keywords while
the failing step has no selector key in its args (so the read selector is
the empty string) produces no repair suggestion: the alternative-selector
generation indexes the last token of an empty split and raises, the
analysis wrapper swallows the exception, and handle_workflow_failure
returns repair_suggested false with the could-not-generate message,
recording the failure and leaving the registry and the suggestion log
unchanged. -/
theorem C10_empty_selector_no_suggestion (hasAgent : Bool) (now : String)
    (st : HealState) (wname : String) (idx : Int) (etype emsg : String)
    (sp ds : Option String) (wf : Workflow) (step : Step) (d : Dict)
    (hen : st.healing_enabled = true)
    (hwf : get_workflow st.registry wname = some wf)
    (hlen : idx < (wf.steps.length : Int))
    (hstep : pyIndex wf.steps idx = some step)
    (hmsg : (strContains (pyLower emsg) "selector" ||
      strContains (pyLower emsg) "element not found") = true)
    (hargs : alookup step "args" = some (Val.dict d))
    (hsel : alookup d "selector" = none) :
    handle_workflow_failure hasAgent now st wname idx etype emsg sp ds =
      ([("success", Val.bool false), ("failure_recorded", Val.bool true),
        ("repair_suggested", Val.bool false),
        ("message", Val.str "Could not generate repair suggestion")],
       { st with failures_log := st.failures_log ++
           [{ workflow_name := wname, step_index := idx, error_type := etype,
              error_message := emsg, screenshot_path := sp, dom_snapshot := ds,
              timestamp := now }] }) := by
  have hcs : currentSelectorOf step = Except.ok "" := by
    simp only [currentSelectorOf, hargs, hsel]
  have hrep : suggest_selector_repair hasAgent now st.registry
      { workflow_name := wname, step_index := idx, error_type := etype,
        error_message := emsg, screenshot_path := sp, dom_snapshot := ds,
        timestamp := now } step = Except.error "list index out of range" := by
    unfold suggest_selector_repair
    rw [hcs]
    rfl
  have hcl : classify_and_suggest_repair hasAgent now st.registry
      { workflow_name := wname, step_index := idx, error_type := etype,
        error_message := emsg, screenshot_path := sp, dom_snapshot := ds,
        timestamp := now } step = Except.error "list index out of range" := by
    have hb := classify_selector_branch hasAgent now st.registry
      { workflow_name := wname, step_index := idx, error_type := etype,
        error_message := emsg, screenshot_path := sp, dom_snapshot := ds,
        timestamp := now } step hmsg
    rw [hb, hrep]
  have hnlt : ¬ (wf.steps.length : Int) ≤ idx := by omega
  unfold handle_workflow_failure
  rw [hen]
  simp only [Bool.not_true, Bool.false_eq_true, if_false]
  unfold analyze_and_repair
  rw [hwf]
  simp only [if_neg hnlt, hstep, hcl]

/-- Claim C10, witness: the theorem applied to the stored click step with
an empty args dict and the element-not-found message. -/
theorem C10_witness :
    handle_workflow_failure false "t" C10st "w" 0 "Exception"
        "element not found: #old" none none =
      ([("success", Val.bool false), ("failure_recorded", Val.bool true),
        ("repair_suggested", Val.bool false),
        ("message", Val.str "Could not generate repair suggestion")],
       { C10st with failures_log := C10st.failures_log ++
           [{ workflow_name := "w", step_index := 0, error_type := "Exception",
              error_message := "element not found: #old", screenshot_path := none,
              dom_snapshot := none, timestamp := "t" }] }) :=
  C10_empty_selector_no_suggestion false "t" C10st "w" 0 "Exception"
    "element not found: #old" none none C10wf C10step [] rfl rfl (by decide)
    rfl rfl rfl rfl
